import Mathlib

/-
Verification of the document-type classifier and validity-scoring engine of
`document_validity_checker.py` (class `DocumentValidityChecker`, plus the
`DocumentAnalytics` log).

Shallow embedding notes:

* Text is modelled as `String` / `List Char` of Unicode code points, matching
  Python `str` (whose indices and lengths also count code points).
* Python float arithmetic on the small score values is modelled with exact
  rationals (`ℚ`).
* All plain substring tests (`term in text`), character-class scans
  (`\d`, `[A-Za-z]{3,}`, `[^\w\s]`, `[A-Z]{2,}`,
  `\d{1,2}[/ -]\d{1,2}[/ -]\d{4}` (separator slash or dash), the grouped 12-digit pattern) are implemented
  concretely below.  The Python `re` character classes `\w`, `\d`, `\s` are
  Unicode aware; they are modelled here restricted to the scripts actually
  used by this program's data and patterns (ASCII plus the Devanagari block),
  which is exact on every string constant of the repository.
* The per-document-type *configured* field regexes (entries of the
  `patterns` dicts, and the expiry templates) are evaluated by the external
  Python `re` library, which is not code of this repository.  Calls into it
  (`re.search` success, `re.finditer` match count, first capture group of
  `re.search`) are modelled by an explicit oracle structure `Regex`;
  theorems quantify over all oracles, and concrete oracles are supplied for
  witnesses, with their values documented against hand-evaluation of `re`.
* Display-only derived strings of the final report (the assembled
  `suggestion` sentence and the `round(x, 1)` presentation copies of the
  scores) are not modelled; no claim references them.  The raw scores and
  flags that feed them are modelled exactly.
-/

set_option maxRecDepth 100000
set_option maxHeartbeats 1000000

/-! ## Character classes (Python `re` classes, Unicode restricted to
    ASCII + Devanagari as used by this program) -/

def isSpaceChar (c : Char) : Bool :=
  c = ' ' || c = '\t' || c = '\n' || c = '\x0d' || c = '\x0b' || c = '\x0c'

def isAsciiDigit (c : Char) : Bool := '0' ≤ c && c ≤ '9'

def isDevDigit (c : Char) : Bool := '\u0966' ≤ c && c ≤ '\u096F'

def isDigitU (c : Char) : Bool := isAsciiDigit c || isDevDigit c

def isAsciiAlpha (c : Char) : Bool := ('a' ≤ c && c ≤ 'z') || ('A' ≤ c && c ≤ 'Z')

def isUpperAscii (c : Char) : Bool := 'A' ≤ c && c ≤ 'Z'

def isDevanagari (c : Char) : Bool := '\u0900' ≤ c && c ≤ '\u097F'

def isWordChar (c : Char) : Bool :=
  isAsciiAlpha c || isDigitU c || c = '_' || isDevanagari c

def isSepChar (c : Char) : Bool := c = '/' || c = '-'

/-- `[^\w\s]` membership: a character that is neither a word character nor
whitespace. -/
def isSpecialChar (c : Char) : Bool := !(isWordChar c || isSpaceChar c)

/-! ## Tiny matching combinators

A matcher `List Char → Option (List Char)` consumes a prefix of its input and
returns the remainder on success.  `scan` tries a matcher at every start
position, which is exactly the success condition of an unanchored
`re.search` for the fixed patterns below (alternation is encoded with
`palt`, so only match *existence* is relied upon, never a particular
captured extent). -/

def pch (p : Char → Bool) : List Char → Option (List Char)
  | [] => none
  | c :: r => if p c then some r else none

def pseq (a b : List Char → Option (List Char)) (l : List Char) :
    Option (List Char) :=
  (a l).bind b

def palt (a b : List Char → Option (List Char)) (l : List Char) :
    Option (List Char) :=
  (a l).orElse (fun _ => b l)

def pstr : List Char → List Char → Option (List Char)
  | [], l => some l
  | c :: cs, l => (pch (fun d => d = c) l).bind (pstr cs)

/-- Greedy `X*` over a character class; exact for the patterns used here
because the class never overlaps the character that must follow it. -/
def pmany (p : Char → Bool) (l : List Char) : Option (List Char) :=
  some (l.dropWhile p)

def scan (P : List Char → Option (List Char)) : List Char → Bool
  | [] => (P []).isSome
  | c :: r => (P (c :: r)).isSome || scan P r

/-- Python `needle in hay` (plain substring containment). -/
def occursIn (needle hay : List Char) : Bool := scan (pstr needle) hay

/-- `text.lower()` as a list of characters.  `Char.toLower` lowercases
ASCII and leaves Devanagari unchanged, as Python does on these scripts. -/
def lowerStr (s : String) : List Char := s.data.map Char.toLower

/-- `needle.lower() in hay.lower()` — the case-insensitive substring test
used throughout the checker. -/
def occursLower (needle hay : String) : Bool :=
  occursIn (lowerStr needle) (lowerStr hay)

/-! ## Whitespace splitting / normalisation (`' '.join(text.lower().split())`) -/

def splitWsStep (c : Char) (acc : List Char × List (List Char)) :
    List Char × List (List Char) :=
  if isSpaceChar c then
    if acc.1.isEmpty then ([], acc.2) else ([], acc.1 :: acc.2)
  else (c :: acc.1, acc.2)

/-- Python `str.split()` with no argument: split on whitespace runs,
dropping empty pieces. -/
def splitWs (l : List Char) : List (List Char) :=
  let r := l.foldr splitWsStep ([], [])
  if r.1.isEmpty then r.2 else r.1 :: r.2

/-- `text_normalized = ' '.join(text.lower().split())`. -/
def normalizeText (s : String) : List Char :=
  List.intercalate [' '] (splitWs (lowerStr s))

/-! ## Fixed regex scans used directly by the checker -/

def pdig : List Char → Option (List Char) := pch isDigitU

def psep : List Char → Option (List Char) := pch isSepChar

def p4dig : List Char → Option (List Char) :=
  pseq pdig (pseq pdig (pseq pdig pdig))

/-- `\d{2} sep \d{2} sep \d{4}` (sep = slash or dash) at the current position. -/
def dChunk22 : List Char → Option (List Char) :=
  pseq pdig (pseq pdig (pseq psep (pseq pdig (pseq pdig (pseq psep p4dig)))))

def dChunk21 : List Char → Option (List Char) :=
  pseq pdig (pseq pdig (pseq psep (pseq pdig (pseq psep p4dig))))

def dChunk12 : List Char → Option (List Char) :=
  pseq pdig (pseq psep (pseq pdig (pseq pdig (pseq psep p4dig))))

def dChunk11 : List Char → Option (List Char) :=
  pseq pdig (pseq psep (pseq pdig (pseq psep p4dig)))

/-- `\d{1,2} sep \d{1,2} sep \d{4}` (sep = slash or dash) at the current position (all four
day/month digit-count combinations). -/
def dateChunk : List Char → Option (List Char) :=
  palt dChunk22 (palt dChunk21 (palt dChunk12 dChunk11))

/-- The date-token search of the checker (`re.search` of the date pattern) succeeds. -/
def hasDateToken (l : List Char) : Bool := scan dateChunk l

/-- `re.search(r'[A-Za-z]{3,}', text)` succeeds. -/
def hasAlphaRun3 (l : List Char) : Bool :=
  scan (pseq (pch isAsciiAlpha) (pseq (pch isAsciiAlpha) (pch isAsciiAlpha))) l

/-- `re.search(r'[A-Z]{2,}', text)` succeeds. -/
def hasUpperRun2 (l : List Char) : Bool :=
  scan (pseq (pch isUpperAscii) (pch isUpperAscii)) l

/-- `re.search(r'[^\w\s]', text)` succeeds. -/
def hasSpecialChar (l : List Char) : Bool := l.any isSpecialChar

/-- `re.search(r'\d', text)` succeeds. -/
def hasDigitChar (l : List Char) : Bool := l.any isDigitU

/-- `re.search(r'[\u0900-\u097F]', text)` succeeds. -/
def hasDevChar (l : List Char) : Bool := l.any isDevanagari

/-- `[\s\-]` membership. -/
def isSepSp (c : Char) : Bool := isSpaceChar c || c = '-'

/-- `\d{4}[\s\-]*\d{4}[\s\-]*\d{4}` at the current position
(no word boundaries — the fallback-detection variant). -/
def grouped12core : List Char → Option (List Char) :=
  pseq p4dig (pseq (pmany isSepSp) (pseq p4dig (pseq (pmany isSepSp) p4dig)))

/-- `re.search(r'\d{4}[\s\-]*\d{4}[\s\-]*\d{4}', text)` succeeds. -/
def hasGrouped12 (l : List Char) : Bool := scan grouped12core l

/-- The trailing `\b` of the Aadhaar 12-digit pattern: the next character
(if any) is not a word character. -/
def boundaryAfter : List Char → Bool
  | [] => true
  | c :: _ => !isWordChar c

def grouped12At (l : List Char) : Bool :=
  match grouped12core l with
  | some r => boundaryAfter r
  | none => false

/-- Scan with a leading-`\b` check: `prevIsWord` tracks whether the previous
character is a word character. -/
def aadhaar12Go : Bool → List Char → Bool
  | _, [] => false
  | pw, c :: r => (!pw && grouped12At (c :: r)) || aadhaar12Go (isWordChar c) r

/-- `re.search(r'\b\d{4}[\s\-]*\d{4}[\s\-]*\d{4}\b', text)` succeeds. -/
def hasAadhaar12 (l : List Char) : Bool := aadhaar12Go false l

/-! ## The pattern registry (`self.document_patterns`), verbatim -/

structure DocConfig where
  keywords : List String
  requiredFields : List String
  patterns : List (String × String)
  securityFeatures : List String
deriving DecidableEq

/-- The regex source strings of the `patterns` dicts, verbatim. -/
def patAadhaar12 : String := "\\b\\d\x7b4\x7d[\\s\\-]*\\d\x7b4\x7d[\\s\\-]*\\d\x7b4\x7d\\b"

def patName25 : String := "[A-Za-z\\s]\x7b2,50\x7d"

def patName35 : String := "[A-Za-z\\s]\x7b3,50\x7d"

def patDobA : String := "(\\d\x7b1,2\x7d[/-]\\d\x7b1,2\x7d[/-]\\d\x7b4\x7d|\\d\x7b4\x7d[/-]\\d\x7b1,2\x7d[/-]\\d\x7b1,2\x7d)"

def patAddrA : String := "(address|पता|s/o|d/o|w/o)"

def patCasteFull : String := "(SC|ST|OBC|VJNT|SBC|scheduled caste|scheduled tribe|other backward class)"

def patCasteNC : String := "(OBC|other backward class|backward class)"

def patDistrict : String := "(mumbai|pune|nagpur|nashik|aurangabad|kolhapur|satara|sangli|solapur|ahmednagar)"

def patCertNum : String := "(cert|certificate|प्रमाणपत्र).*?no\\.?\\s*:?\\s*([A-Z0-9/-]+)"

def patAnnualIncome : String := "(?:rs\\.?|₹|rupees)\\s*(\\d\x7b1,3\x7d(?:,\\d\x7b3\x7d)*)"

def patValidityDate : String := "valid.*?(\\d\x7b2\x7d[/-]\\d\x7b2\x7d[/-]\\d\x7b4\x7d)"

def patDob22 : String := "\\d\x7b2\x7d[/-]\\d\x7b2\x7d[/-]\\d\x7b4\x7d"

def patPlaceBirth : String := "(born at|birth place|जन्म स्थान)"

def patParents : String := "(father|mother|पिता|माता)"

def patRegNum : String := "(reg|registration).*?no\\.?\\s*:?\\s*([A-Z0-9/-]+)"

def patAddrD : String := "(address|पता|निवास)"

def aadhaarConfig : DocConfig :=
  { keywords := ["aadhaar", "aadhar", "आधार", "unique identification",
      "government of india", "uidai", "uid", "enrollment", "enrolment",
      "भारत सरकार", "unique identity", "identification authority"]
    requiredFields := ["12_digit_number", "name", "dob"]
    patterns := [("12_digit_number", patAadhaar12), ("name", patName25),
      ("dob", patDobA), ("address", patAddrA)]
    securityFeatures := ["hologram", "qr code", "secure paper", "watermark"] }

def casteConfig : DocConfig :=
  { keywords := ["caste certificate", "जात प्रमाणपत्र",
      "government of maharashtra", "tahsildar", "collector"]
    requiredFields := ["name", "caste", "district", "signature_stamp",
      "certificate_number"]
    patterns := [("name", patName35), ("caste", patCasteFull),
      ("district", patDistrict), ("certificate_number", patCertNum)]
    securityFeatures := ["government seal", "official signature", "letterhead"] }

def incomeConfig : DocConfig :=
  { keywords := ["income certificate", "उत्पन्न प्रमाणपत्र", "annual income",
      "tahsildar", "revenue department"]
    requiredFields := ["name", "annual_income", "issuing_authority",
      "certificate_number", "validity_date"]
    patterns := [("name", patName35), ("annual_income", patAnnualIncome),
      ("certificate_number", patCertNum), ("validity_date", patValidityDate)]
    securityFeatures := ["government seal", "official signature", "revenue stamp"] }

def domicileConfig : DocConfig :=
  { keywords := ["domicile certificate", "निवास प्रमाणपत्र",
      "residence certificate", "maharashtra domicile"]
    requiredFields := ["name", "address", "district", "issuing_authority",
      "certificate_number"]
    patterns := [("name", patName35), ("address", patAddrD),
      ("district", patDistrict), ("certificate_number", patCertNum)]
    securityFeatures := ["government seal", "official signature", "letterhead"] }

def birthConfig : DocConfig :=
  { keywords := ["birth certificate", "जन्म प्रमाणपत्र", "registrar",
      "birth registration"]
    requiredFields := ["name", "dob", "place_of_birth", "parents_name",
      "registration_number"]
    patterns := [("name", patName35), ("dob", patDob22),
      ("place_of_birth", patPlaceBirth), ("parents_name", patParents),
      ("registration_number", patRegNum)]
    securityFeatures := ["registrar seal", "official signature", "security paper"] }

def nonCreamyConfig : DocConfig :=
  { keywords := ["non creamy layer", "non-creamy layer", "obc certificate",
      "creamy layer"]
    requiredFields := ["name", "caste", "annual_income", "issuing_authority",
      "validity_date"]
    patterns := [("name", patName35), ("caste", patCasteNC),
      ("annual_income", patAnnualIncome), ("validity_date", patValidityDate)]
    securityFeatures := ["government seal", "official signature", "letterhead"] }

/-- `self.document_patterns` in insertion (iteration) order. -/
def document_patterns : List (String × DocConfig) :=
  [("aadhaar", aadhaarConfig),
   ("caste_certificate", casteConfig),
   ("income_certificate", incomeConfig),
   ("domicile_certificate", domicileConfig),
   ("birth_certificate", birthConfig),
   ("non_creamy_layer", nonCreamyConfig)]

def registryIds : List String := document_patterns.map Prod.fst

def findConfig (dt : String) : Option DocConfig :=
  (document_patterns.lookup dt)

/-- `self.fraud_indicators` — the source list contains `'duplicate'` twice;
the duplicate is kept deliberately (each occurrence appends its own red
flag / warning). -/
def fraud_indicators : List String :=
  ["photocopy", "xerox", "duplicate", "sample", "specimen", "draft",
   "watermark missing", "poor quality", "blurred text", "copy", "duplicate",
   "not original", "scanned copy", "printout"]

/-! ## The `re` oracle for the configured field patterns

The checker hands the per-type pattern strings to the Python `re` library
(always with `re.IGNORECASE`).  That library is an external collaborator,
modelled as an oracle:
  * `found p t`   — `re.search(p, t, re.IGNORECASE) is not None`;
  * `count p t`   — `len(list(re.finditer(p, t, re.IGNORECASE)))`;
  * `capture p t` — `m.group(1)` of `re.search(p, t, re.IGNORECASE)`,
    or `none` when there is no match. -/

structure Regex where
  found : String → String → Bool
  count : String → String → Nat
  capture : String → String → Option String

/-! ## `advanced_text_analysis` -/

structure TextAnalysis where
  hasNumbers : Bool
  hasDates : Bool
  hasGovernmentTerms : Bool
  languageMix : Bool
deriving DecidableEq

def advanced_text_analysis (text : String) : TextAnalysis :=
  { hasNumbers := hasDigitChar text.data
    hasDates := hasDateToken text.data
    hasGovernmentTerms :=
      ["government", "सरकार", "authority", "प्राधिकरण"].any
        (fun t => occursIn t.data (lowerStr text))
    languageMix := hasDevChar text.data }

/-! ## `detect_document_type` -/

/-- One keyword's contribution: 3 for an exact (lowercased, whitespace
collapsed) substring match, else 1 if any individual word of length > 2
of the keyword occurs, else 0. -/
def keywordHit (norm : List Char) (kw : String) : Nat :=
  let kwl := lowerStr kw
  if occursIn kwl norm then 3
  else if (splitWs kwl).any (fun w => decide (2 < w.length) && occursIn w norm)
  then 1
  else 0

def keywordScoreOf (norm : List Char) (cfg : DocConfig) : Nat :=
  (cfg.keywords.map (keywordHit norm)).sum

/-- +2 per field pattern that `re.search`es, with +3 extra (total 5) for the
Aadhaar 12-digit pattern. -/
def patternScoreOf (rx : Regex) (text : String) (dt : String)
    (cfg : DocConfig) : Nat :=
  (cfg.patterns.map (fun pr =>
    if rx.found pr.2 text then
      if pr.1 = "12_digit_number" && dt = "aadhaar" then 5 else 2
    else 0)).sum

def aadhaarContext : List String :=
  ["male", "female", "पुरुष", "महिला", "address", "पता", "dob", "year of birth"]

def casteContext : List String :=
  ["caste", "जात", "sc", "st", "obc", "backward", "scheduled", "tribe"]

def incomeContext : List String :=
  ["income", "उत्पन्न", "salary", "annual", "rupees", "₹", "rs"]

def contextScoreOf (text : String) (dt : String) : Nat :=
  if dt = "aadhaar" then
    2 * aadhaarContext.countP (fun t => occursIn t.data (lowerStr text)) +
      (if hasAadhaar12 text.data then 5 else 0)
  else if dt = "caste_certificate" then
    2 * casteContext.countP (fun t => occursIn t.data (lowerStr text))
  else if dt = "income_certificate" then
    2 * incomeContext.countP (fun t => occursIn t.data (lowerStr text))
  else 0

def bilingualTypes : List String :=
  ["caste_certificate", "income_certificate", "domicile_certificate"]

def structureScoreOf (text : String) (dt : String) : Nat :=
  let ta := advanced_text_analysis text
  (if ta.hasGovernmentTerms then 2 else 0) +
  (if ta.hasDates then 1 else 0) +
  (if ta.languageMix && bilingualTypes.contains dt then 1 else 0)

/-- The weighted total of `detect_document_type` for one type. -/
def typeTotal (rx : Regex) (text : String) (dt : String) (cfg : DocConfig) : ℚ :=
  (keywordScoreOf (normalizeText text) cfg : ℚ) * 0.4 +
  (patternScoreOf rx text dt cfg : ℚ) * 0.3 +
  (contextScoreOf text dt : ℚ) * 0.2 +
  (structureScoreOf text dt : ℚ) * 0.1

def scoresList (rx : Regex) (text : String) : List (String × ℚ) :=
  document_patterns.map (fun p => (p.1, typeTotal rx text p.1 p.2))

/-- Python `max(scores, key=scores.get)` keeps the *first* key attaining the
maximum; the fold updates only on a strictly larger value. -/
def pickStep (b y : String × ℚ) : String × ℚ := if b.2 < y.2 then y else b

def pickBest : List (String × ℚ) → Option (String × ℚ)
  | [] => none
  | x :: xs => some (xs.foldl pickStep x)

def detect_document_type (rx : Regex) (text : String) : Option String :=
  match pickBest (scoresList rx text) with
  | none => none
  | some b => if 2 ≤ b.2 then some b.1 else none

/-- `max(scores.values())` — the value carried by `pickBest` (0 for an
empty registry, which never occurs). -/
def bestTotal (rx : Regex) (text : String) : ℚ :=
  match pickBest (scoresList rx text) with
  | some b => b.2
  | none => 0

/-! ## `fallback_detection` (fixed regexes, implemented concretely;
`male|female|...`-style alternations of literals are unions of
case-insensitive substring tests) -/

def anyTermLower (terms : List String) (text : String) : Bool :=
  terms.any (fun t => occursIn (lowerStr t) (lowerStr text))

def fallbackAadhaarScore (text : String) : Nat :=
  (if hasGrouped12 text.data then 1 else 0) +
  (if anyTermLower ["male", "female", "पुरुष", "महिला"] text then 1 else 0) +
  (if anyTermLower ["dob", "date of birth", "जन्म"] text then 1 else 0) +
  (if anyTermLower ["address", "पता"] text then 1 else 0)

def fallback_detection (text : String) : Option String :=
  if 2 ≤ fallbackAadhaarScore text then some "aadhaar"
  else if anyTermLower ["certificate", "प्रमाणपत्र"] text then
    if anyTermLower ["income", "उत्पन्न"] text then some "income_certificate"
    else if anyTermLower ["caste", "जात"] text then some "caste_certificate"
    else if anyTermLower ["domicile", "निवास"] text then some "domicile_certificate"
    else if anyTermLower ["birth", "जन्म"] text then some "birth_certificate"
    else none
  else none

/-! ## `check_security_features` -/

structure SecurityCheck where
  securityScore : ℚ
  foundSecurity : List String
  warnings : List String
deriving DecidableEq

def check_security_features (text : String) (dt : String) : SecurityCheck :=
  match findConfig dt with
  | none => { securityScore := 0, foundSecurity := [], warnings := ["Unknown document type"] }
  | some cfg =>
    let found := cfg.securityFeatures.filter (fun f => occursLower f text)
    let warnings := (fraud_indicators.filter (fun i => occursLower i text)).map
      (fun i => "Potential fraud indicator: " ++ i)
    { securityScore :=
        if cfg.securityFeatures.length = 0 then 1
        else (found.length : ℚ) / (cfg.securityFeatures.length : ℚ)
      foundSecurity := found
      warnings := warnings }

/-! ## `validate_document_integrity` -/

structure IntegrityCheck where
  textQuality : Nat
  structureScore : Nat
  authenticityMarkers : List String
  redFlags : List String
deriving DecidableEq

def govtTerms : List String :=
  ["government", "सरकार", "authority", "प्राधिकरण", "official", "seal", "signature"]

/-- The four 20-point quality checks other than the special-character check. -/
def lengthAlphaPoints (l : List Char) : Nat :=
  (if 100 < l.length then 20 else 0) +
  (if 300 < l.length then 20 else 0) +
  (if hasAlphaRun3 l then 20 else 0)

def textQualityOf (l : List Char) : Nat :=
  lengthAlphaPoints l + (if hasSpecialChar l then 0 else 20)

def structurePointsOf (l : List Char) : Nat :=
  (if hasDigitChar l then 10 else 0) +
  (if hasUpperRun2 l then 10 else 0) +
  (if hasDateToken l then 15 else 0)

def redFlagsOf (text : String) : List String :=
  fraud_indicators.filter (fun i => occursLower i text)

def validate_document_integrity (text : String) : IntegrityCheck :=
  { textQuality := textQualityOf text.data
    structureScore := structurePointsOf text.data
    authenticityMarkers := govtTerms.filter (fun t => occursLower t text)
    redFlags := redFlagsOf text }

/-! ## `validate_document` -/

/-- The per-field branch of the field-validation loop: pattern fields use
the `re` oracle's match count; the three recognized heuristic field names
use curated term counts; any other pattern-less field is "generically
present" with confidence 50. -/
def signatureTermCount (text : String) : Nat :=
  ["signature", "stamp", "seal", "signed", "authorized",
   "हस्ताक्षर"].countP (fun t => occursLower t text)

def authorityTermCount (text : String) : Nat :=
  ["tahsildar", "collector", "registrar", "officer", "authority",
   "प्राधिकरण"].countP (fun t => occursLower t text)

def addressTermCount (text : String) : Nat :=
  ["address", "पता", "residence", "निवास", "village", "city",
   "district"].countP (fun t => occursLower t text)

def fieldCheck (rx : Regex) (text : String) (patterns : List (String × String))
    (field : String) : Bool × Nat :=
  match patterns.lookup field with
  | some pat =>
    if 0 < rx.count pat text
    then (true, min 100 (rx.count pat text * 30 + 40)) else (false, 0)
  | none =>
    if field = "signature_stamp" then
      if 1 ≤ signatureTermCount text
      then (true, min 100 (signatureTermCount text * 25 + 25)) else (false, 0)
    else if field = "issuing_authority" then
      if 1 ≤ authorityTermCount text
      then (true, min 100 (authorityTermCount text * 30 + 30)) else (false, 0)
    else if field = "address" then
      if 1 ≤ addressTermCount text
      then (true, min 100 (addressTermCount text * 20 + 40)) else (false, 0)
    else (true, 50)

/-- The successful validation report.  `extracted_data` (display values
pulled out of the regex match objects) is not modelled — no claim
references it; the found/confidence information that feeds the score is
modelled exactly. -/
structure ValidationOk where
  valid : Bool
  validityScore : ℚ
  missingFields : List String
  foundFields : List String
  fieldConfidence : List (String × Nat)
  fieldFrac : ℚ
  avgFieldConfidence : ℚ
  securityScore : ℚ
  securityWarnings : List String
  foundSecurity : List String
  integrity : IntegrityCheck
  redFlags : List String
deriving DecidableEq

/-- `validate_document` returns a dict of one of two shapes: the defensive
unknown-type dict `{'valid': False, 'missing_fields': ['Unknown document
type']}` (which carries *no* `validity_score` key), or the full report. -/
inductive VResult where
  | unknownType : VResult
  | ok : ValidationOk → VResult
deriving DecidableEq

/-- Dict access `result.get('validity_score')`: `none` when the key is
absent (the unknown-type dict). -/
def vScore? : VResult → Option ℚ
  | .unknownType => none
  | .ok r => some r.validityScore

def vValid : VResult → Bool
  | .unknownType => false
  | .ok r => r.valid

def vMissing : VResult → List String
  | .unknownType => ["Unknown document type"]
  | .ok r => r.missingFields

def fieldResults (rx : Regex) (text : String) (cfg : DocConfig) :
    List (String × (Bool × Nat)) :=
  cfg.requiredFields.map (fun f => (f, fieldCheck rx text cfg.patterns f))

def foundFieldsOf (rx : Regex) (text : String) (cfg : DocConfig) : List String :=
  ((fieldResults rx text cfg).filter (fun r => r.2.1)).map Prod.fst

def missingFieldsOf (rx : Regex) (text : String) (cfg : DocConfig) : List String :=
  ((fieldResults rx text cfg).filter (fun r => !r.2.1)).map Prod.fst

/-- `field_ratio = len(found_fields) / len(required_fields) if required_fields else 0`. -/
def fieldFracOf (rx : Regex) (text : String) (cfg : DocConfig) : ℚ :=
  if cfg.requiredFields.length = 0 then 0
  else ((foundFieldsOf rx text cfg).length : ℚ) / (cfg.requiredFields.length : ℚ)

def confSumOf (rx : Regex) (text : String) (cfg : DocConfig) : Nat :=
  ((fieldResults rx text cfg).map (fun r => r.2.2)).sum

/-- `avg_field_confidence`: the mean over all required fields (the
`field_confidence` dict has one distinct key per required field). -/
def avgConfOf (rx : Regex) (text : String) (cfg : DocConfig) : ℚ :=
  if cfg.requiredFields.length = 0 then 0
  else (confSumOf rx text cfg : ℚ) / (cfg.requiredFields.length : ℚ)

/-- `(text_quality + structure_score) / 100`. -/
def integrityScoreOf (text : String) : ℚ :=
  ((textQualityOf text.data + structurePointsOf text.data : Nat) : ℚ) / 100

/-- The weighted composite before the red-flag penalty. -/
def baseScoreOf (rx : Regex) (text : String) (dt : String) (cfg : DocConfig) : ℚ :=
  fieldFracOf rx text cfg * 0.3 + (avgConfOf rx text cfg / 100) * 0.25 +
    (check_security_features text dt).securityScore * 0.25 +
    integrityScoreOf text * 0.2

/-- `validity_score = max(0, weighted - 0.1 * len(red_flags))`. -/
def validityScoreOf (rx : Regex) (text : String) (dt : String) (cfg : DocConfig) : ℚ :=
  max 0 (baseScoreOf rx text dt cfg - ((redFlagsOf text).length : ℚ) * 0.1)

def buildReport (rx : Regex) (text : String) (dt : String) (cfg : DocConfig) :
    ValidationOk :=
  let sec := check_security_features text dt
  { valid := decide ((0.6 : ℚ) ≤ validityScoreOf rx text dt cfg) &&
      (redFlagsOf text).isEmpty
    validityScore := validityScoreOf rx text dt cfg
    missingFields := missingFieldsOf rx text cfg
    foundFields := foundFieldsOf rx text cfg
    fieldConfidence := (fieldResults rx text cfg).map (fun r => (r.1, r.2.2))
    fieldFrac := fieldFracOf rx text cfg
    avgFieldConfidence := avgConfOf rx text cfg
    securityScore := sec.securityScore
    securityWarnings := sec.warnings
    foundSecurity := sec.foundSecurity
    integrity := validate_document_integrity text
    redFlags := redFlagsOf text }

def validate_document (rx : Regex) (text : String) (dt : String) : VResult :=
  match findConfig dt with
  | none => .unknownType
  | some cfg => .ok (buildReport rx text dt cfg)

/-! ## `check_expiry_date`

`datetime.now()` is modelled as a rational number of days since
1970-01-01 (midnight = integer values); a parsed `datetime` is an integer
day number via the standard civil-calendar conversion, so
`(expiry_date - today).days` is `⌊expiryDays - now⌋`. -/

def isLeapYear (y : Int) : Bool :=
  (y % 4 = 0 && y % 100 ≠ 0) || y % 400 = 0

def daysInMonth (y m : Int) : Int :=
  if m = 2 then (if isLeapYear y then 29 else 28)
  else if m = 4 || m = 6 || m = 9 || m = 11 then 30
  else 31

structure CivilDate where
  year : Int
  month : Int
  day : Int
deriving DecidableEq

/-- Days since 1970-01-01 of a civil date (standard days-from-civil
computation; all intermediate quantities are nonnegative for the years
`datetime` accepts, so `Int` truncated division agrees with floor). -/
def civilDays (d : CivilDate) : Int :=
  let y := if d.month ≤ 2 then d.year - 1 else d.year
  let era := y / 400
  let yoe := y - era * 400
  let mp := if 2 < d.month then d.month - 3 else d.month + 9
  let doy := (153 * mp + 2) / 5 + d.day - 1
  let doe := yoe * 365 + yoe / 4 - yoe / 100 + doy
  era * 146097 + doe - 719468

def digitVal (c : Char) : Int := (c.toNat : Int) - ('0'.toNat : Int)

/-- `datetime.strptime(s, fmt)` for the formats `%d SEP %m SEP %Y` or
`%m SEP %d SEP %Y` on the `NN SEP NN SEP NNNN`-shaped strings captured by
the expiry templates (the capture group guarantees this shape; `strptime`
validates ranges and rejects year 0). -/
def strptimeDate (sep : Char) (monthFirst : Bool) (s : String) :
    Option CivilDate :=
  match s.data with
  | [a1, a2, s1, b1, b2, s2, y1, y2, y3, y4] =>
    if s1 = sep ∧ s2 = sep ∧
        (isAsciiDigit a1 ∧ isAsciiDigit a2 ∧ isAsciiDigit b1 ∧ isAsciiDigit b2 ∧
         isAsciiDigit y1 ∧ isAsciiDigit y2 ∧ isAsciiDigit y3 ∧ isAsciiDigit y4) then
      let a := 10 * digitVal a1 + digitVal a2
      let b := 10 * digitVal b1 + digitVal b2
      let y := 1000 * digitVal y1 + 100 * digitVal y2 + 10 * digitVal y3 + digitVal y4
      let m := if monthFirst then a else b
      let d := if monthFirst then b else a
      if 1 ≤ y ∧ 1 ≤ m ∧ m ≤ 12 ∧ 1 ≤ d ∧ d ≤ daysInMonth y m then
        some ⟨y, m, d⟩
      else none
    else none
  | _ => none

/-- The four `strptime` formats tried in order:
`%d/%m/%Y`, `%d-%m-%Y`, `%m/%d/%Y`, `%m-%d-%Y`; first success wins. -/
def parseAnyFormat (s : String) : Option CivilDate :=
  (strptimeDate '/' false s).orElse (fun _ =>
    (strptimeDate '-' false s).orElse (fun _ =>
      (strptimeDate '/' true s).orElse (fun _ =>
        strptimeDate '-' true s)))

structure ExpiryInfo where
  hasExpiry : Bool
  expired : Bool
  expiresSoon : Bool
  expiryDate : Option String
deriving DecidableEq

def noExpiryInfo : ExpiryInfo :=
  { hasExpiry := false, expired := false, expiresSoon := false, expiryDate := none }

/-- The four validity-date templates, in source order. -/
def tplValidUntil : String :=
  "valid.*?until.*?(\\d\x7b2\x7d[/-]\\d\x7b2\x7d[/-]\\d\x7b4\x7d)"

def tplExpiresOn : String :=
  "expires.*?on.*?(\\d\x7b2\x7d[/-]\\d\x7b2\x7d[/-]\\d\x7b4\x7d)"

def tplValidity : String :=
  "validity.*?(\\d\x7b2\x7d[/-]\\d\x7b2\x7d[/-]\\d\x7b4\x7d)"

def tplValidUpto : String :=
  "valid.*?upto.*?(\\d\x7b2\x7d[/-]\\d\x7b2\x7d[/-]\\d\x7b4\x7d)"

def validityTemplates : List String :=
  [tplValidUntil, tplExpiresOn, tplValidity, tplValidUpto]

/-- Comparison of a parsed expiry date against `now`:
`days_until_expiry = (expiry_date - today).days` is the floor of the
day-difference; `expired` iff it is negative, `expires_soon` (elif) iff it
is below 30. -/
def expiryOfDate (s : String) (now : ℚ) : Option CivilDate → ExpiryInfo
  | none => noExpiryInfo
  | some d =>
    { hasExpiry := true
      expired := decide (⌊((civilDays d : ℚ) - now)⌋ < 0)
      expiresSoon := decide (¬ ⌊((civilDays d : ℚ) - now)⌋ < 0) &&
        decide (⌊((civilDays d : ℚ) - now)⌋ < 30)
      expiryDate := some s }

/-- Processing of the first matching template's capture: parse (first
successful format wins), then compare with `now`.  In the source the `for`
loop `break`s after the first matching template whether or not parsing
succeeded, and `has_expiry`/`expiry_date` are only assigned after a
successful parse. -/
def expiryFromCapture (cap : Option String) (now : ℚ) : ExpiryInfo :=
  match cap with
  | none => noExpiryInfo
  | some s => expiryOfDate s now (parseAnyFormat s)

def check_expiry_date (rx : Regex) (text : String) (now : ℚ) : ExpiryInfo :=
  expiryFromCapture (validityTemplates.findSome? (fun p => rx.capture p text)) now

/-! ## `check_document` -/

/-- The distinct outcome dict shapes of `check_document`.  The constructor
arguments record the dict entries a claim references: the error-details
text, the insufficient-text suggestion/confidence/length, the diagnostic
text sample, or the full report. -/
structure CheckReport where
  documentType : String
  valid : Bool
  missingFields : List String
  foundFields : List String
  securityWarnings : List String
  redFlags : List String
  expiryInfo : ExpiryInfo
deriving DecidableEq

inductive CheckOutcome where
  | extractionError : String → CheckOutcome
  | insufficientText : String → ℚ → Nat → CheckOutcome
  | unrecognizedType : String → CheckOutcome
  | report : CheckReport → CheckOutcome
deriving DecidableEq

def outcomeValid : CheckOutcome → Bool
  | .extractionError _ => false
  | .insufficientText _ _ _ => false
  | .unrecognizedType _ => false
  | .report r => r.valid

def isInsufficientOutcome : CheckOutcome → Bool
  | .insufficientText _ _ _ => true
  | _ => false

def extractionErrorHeads : List String :=
  ["Error", "OCR not available", "No text could be extracted", "File not found"]

def startsWithExtractionError (text : String) : Bool :=
  extractionErrorHeads.any (fun p => p.data.isPrefixOf text.data)

/-- Python `str.strip()` then `len`. -/
def strippedLen (text : String) : Nat :=
  (((text.data.dropWhile isSpaceChar).reverse.dropWhile isSpaceChar).reverse).length

def insufficientSuggestion : String :=
  "Very little text was extracted from the document. Please upload a clearer, higher quality image."

/-- `extracted_text[:200] + "..." if len > 200 else extracted_text`. -/
def textSample (text : String) : String :=
  if 200 < text.data.length then ⟨text.data.take 200⟩ ++ "..." else text

/-- `check_document`, from the extracted text onward (`extract_text` is the
excluded OCR/PDF collaborator; its in-band error sentinels are the string
prefixes checked first). -/
def check_document (rx : Regex) (now : ℚ) (text : String) : CheckOutcome :=
  if startsWithExtractionError text then .extractionError text
  else if strippedLen text < 10 then
    .insufficientText insufficientSuggestion 0 text.data.length
  else
    match (detect_document_type rx text).orElse (fun _ => fallback_detection text) with
    | none => .unrecognizedType (textSample text)
    | some dt =>
      match validate_document rx text dt with
      -- dead branch: both classifiers only ever return registry keys,
      -- for which `validate_document` produces the full report
      | .unknownType => .unrecognizedType (textSample text)
      | .ok vr =>
        let expiry := check_expiry_date rx text now
        .report
          { documentType := dt
            valid := vr.valid && !expiry.expired
            missingFields := vr.missingFields
            foundFields := vr.foundFields
            securityWarnings := vr.securityWarnings
            redFlags := vr.redFlags
            expiryInfo := expiry }

/-! ## `DocumentAnalytics.log_validation` -/

structure LogEntry where
  timestamp : String
  documentType : String
  valid : Bool
  confidence : ℚ
  securityScore : ℚ
deriving DecidableEq

/-- Append, then keep only the last 100 entries (`hist[-100:]`). -/
def log_validation (hist : List LogEntry) (e : LogEntry) : List LogEntry :=
  if 100 < (hist ++ [e]).length then
    (hist ++ [e]).drop ((hist ++ [e]).length - 100)
  else hist ++ [e]

/-! ## Concrete instances used by witnesses and counterexamples -/

/-- Trivial `re` oracle: no configured field pattern matches.  (Theorems
quantify over every oracle; this instance discharges their hypotheses at
concrete inputs.) -/
def rx0 : Regex :=
  { found := fun _ _ => false, count := fun _ _ => 0, capture := fun _ _ => none }

/-- Classifier witness text: with `rx0`, keyword score 12 for `aadhaar`
(exact hits on `aadhaar`, `government of india`, `uidai`, `uid`) and
structure score 2, weighted total 5.0; every other type totals at most 0.6. -/
def cT3 : String := "aadhaar uidai government of india"

/-- Monotonicity counterexample, baseline text (108 characters, the first
103 of which are letters and spaces, followed by `45000`): classified
`non_creamy_layer` (weighted total 6.0), fully clean of special
characters, red flags and dates. -/
def ncText : String :=
  "non creamy layer OBC certificate tahsildar government seal official signature letterhead for family rs 45000"

/-- The appended substring: whitespace plus the configured
`non_creamy_layer` keyword `non-creamy layer` (its hyphen is the point —
it is a `[^\w\s]` character). -/
def ncSuffix : String := " non-creamy layer"

def ncTextApp : String := ncText ++ ncSuffix

/-- `re` oracle agreeing with Python `re` (with `re.IGNORECASE`) on
`ncText` and `ncTextApp`, hand- and machine-checked:
  * `[A-Za-z\s]{3,50}` — the 103-character letter/space prefix splits into
    non-overlapping matches of 50+50+3 characters (3 matches); appending
    adds ` non` and `creamy layer` segments around the hyphen (5 matches);
    the Aadhaar variant `{2,50}` splits identically;
  * the caste alternations match the single `OBC` once;
  * the income pattern matches `rs 45000` once;
  * after appending, the certificate-number pattern matches once
    (`certificate … no` inside the appended `non-creamy`);
  * nothing else matches (no date, district, address, or `valid` token). -/
def rxCcount (p t : String) : Nat :=
  if t = ncText then
    if p = patName35 then 3 else if p = patName25 then 3
    else if p = patCasteNC then 1 else if p = patCasteFull then 1
    else if p = patAnnualIncome then 1 else 0
  else if t = ncTextApp then
    if p = patName35 then 5 else if p = patName25 then 5
    else if p = patCasteNC then 1 else if p = patCasteFull then 1
    else if p = patAnnualIncome then 1 else if p = patCertNum then 1 else 0
  else 0

def rxC : Regex :=
  { found := fun p t => decide (0 < (rxCcount p t)), count := rxCcount,
    capture := fun _ _ => none }

/-- `re` oracle for the expiry witness: only the first validity template
matches, capturing `01/01/2020`. -/
def rxE : Regex :=
  { found := fun _ _ => false, count := fun _ _ => 0,
    capture := fun p _ => if p = tplValidUntil then some "01/01/2020" else none }

/-! # Lemmas and claim theorems -/

/-! ## Generic facts about the matching combinators -/

/-- A matcher is *stable* when appending to the input extends the remainder
by the appended suffix. -/
def StableM (P : List Char → Option (List Char)) : Prop :=
  ∀ l s r, P l = some r → P (l ++ s) = some (r ++ s)

/-- A matcher is *monotone* when success survives appending. -/
def MonoM (P : List Char → Option (List Char)) : Prop :=
  ∀ l s, (P l).isSome → (P (l ++ s)).isSome

theorem pch_stable (p : Char → Bool) : StableM (pch p) := by
  intro l s r h
  cases l with
  | nil => simp [pch] at h
  | cons c t =>
    simp only [pch] at h ⊢
    split at h
    · cases h; simp_all
    · cases h

theorem pseq_stable {a b : List Char → Option (List Char)}
    (ha : StableM a) (hb : StableM b) : StableM (pseq a b) := by
  intro l s r h
  simp only [pseq] at h ⊢
  cases hm : a l with
  | none => rw [hm] at h; cases h
  | some m =>
    rw [hm] at h
    rw [ha l s m hm]
    exact hb m s r h

theorem pstr_stable (n : List Char) : StableM (pstr n) := by
  induction n with
  | nil => intro l s r h; cases h; simp [pstr]
  | cons c cs ih =>
    intro l s r h
    simp only [pstr] at h ⊢
    cases hm : pch (fun d => d = c) l with
    | none => rw [hm] at h; cases h
    | some m =>
      rw [hm] at h
      rw [pch_stable _ l s m hm]
      exact ih m s r h

theorem StableM.mono {P : List Char → Option (List Char)} (h : StableM P) :
    MonoM P := by
  intro l s hs
  cases hm : P l with
  | none => rw [hm] at hs; cases hs
  | some m => rw [h l s m hm]; rfl

theorem palt_mono {a b : List Char → Option (List Char)}
    (ha : MonoM a) (hb : MonoM b) : MonoM (palt a b) := by
  intro l s h
  simp only [palt] at h ⊢
  cases hm : a l with
  | some m =>
    have := ha l s (by rw [hm]; rfl)
    cases hm2 : a (l ++ s) with
    | none => rw [hm2] at this; cases this
    | some m2 => simp [Option.orElse, hm2]
  | none =>
    rw [hm] at h
    simp only [Option.orElse] at h
    have := hb l s h
    cases hm2 : a (l ++ s) with
    | none => simpa [Option.orElse, hm2] using this
    | some m2 => simp [Option.orElse, hm2]

theorem scan_of_isSome {P : List Char → Option (List Char)} {l : List Char}
    (h : (P l).isSome) : scan P l = true := by
  cases l with
  | nil => simpa [scan] using h
  | cons c r => simp [scan, h]

theorem scan_append {P : List Char → Option (List Char)} (hP : MonoM P)
    {l : List Char} (s : List Char) (h : scan P l = true) :
    scan P (l ++ s) = true := by
  induction l with
  | nil =>
    simp only [scan] at h
    exact scan_of_isSome (by simpa using hP [] s h)
  | cons c r ih =>
    simp only [scan, Bool.or_eq_true] at h
    rcases h with h | h
    · exact scan_of_isSome (hP (c :: r) s h)
    · simp [scan, ih h]

theorem occursIn_append {n l : List Char} (s : List Char)
    (h : occursIn n l = true) : occursIn n (l ++ s) = true :=
  scan_append (pstr_stable n).mono s h

theorem scan_exists {P : List Char → Option (List Char)} {l : List Char}
    (h : scan P l = true) : ∃ t, t <:+ l ∧ (P t).isSome := by
  induction l with
  | nil => exact ⟨[], List.suffix_refl [], by simpa [scan] using h⟩
  | cons c r ih =>
    simp only [scan, Bool.or_eq_true] at h
    rcases h with h | h
    · exact ⟨c :: r, List.suffix_refl _, h⟩
    · obtain ⟨t, ht, hs⟩ := ih h
      exact ⟨t, ht.trans (List.suffix_cons c r), hs⟩

theorem pch_isSome_elim {p : Char → Bool} {l r : List Char}
    (h : pch p l = some r) : ∃ c, l = c :: r ∧ p c = true := by
  cases l with
  | nil => cases h
  | cons c t =>
    simp only [pch] at h
    split at h
    · cases h; exact ⟨c, rfl, by assumption⟩
    · cases h

theorem pseq_isSome_elim {a b : List Char → Option (List Char)} {l : List Char}
    (h : (pseq a b l).isSome) : ∃ m, a l = some m ∧ (b m).isSome := by
  simp only [pseq] at h
  cases hm : a l with
  | none => rw [hm] at h; cases h
  | some m => rw [hm] at h; exact ⟨m, rfl, h⟩

theorem palt_isSome_elim {a b : List Char → Option (List Char)} {l : List Char}
    (h : (palt a b l).isSome) : (a l).isSome ∨ (b l).isSome := by
  simp only [palt] at h
  cases hm : a l with
  | none => rw [hm] at h; right; simpa [Option.orElse] using h
  | some m => left; simp [hm]

/-- A chain starting `digit, digit, separator, …` puts a separator in the
input. -/
theorem sep_after2 (X : List Char → Option (List Char)) (t : List Char)
    (h : (pseq pdig (pseq pdig (pseq psep X)) t).isSome) :
    ∃ c ∈ t, isSepChar c = true := by
  simp only [pdig, psep] at h
  obtain ⟨m1, h1, h⟩ := pseq_isSome_elim h
  obtain ⟨c1, e1, -⟩ := pch_isSome_elim h1
  obtain ⟨m2, h2, h⟩ := pseq_isSome_elim h
  obtain ⟨c2, e2, -⟩ := pch_isSome_elim h2
  obtain ⟨m3, h3, -⟩ := pseq_isSome_elim h
  obtain ⟨c3, e3, hc3⟩ := pch_isSome_elim h3
  subst e1; subst e2; subst e3
  exact ⟨c3, by simp, hc3⟩

theorem sep_after1 (X : List Char → Option (List Char)) (t : List Char)
    (h : (pseq pdig (pseq psep X) t).isSome) :
    ∃ c ∈ t, isSepChar c = true := by
  simp only [pdig, psep] at h
  obtain ⟨m1, h1, h⟩ := pseq_isSome_elim h
  obtain ⟨c1, e1, -⟩ := pch_isSome_elim h1
  obtain ⟨m2, h2, hc2⟩ := pseq_isSome_elim h
  obtain ⟨c2, e2, hc2'⟩ := pch_isSome_elim h2
  subst e1; subst e2
  exact ⟨c2, by simp, hc2'⟩

theorem dateChunk_sep {t : List Char} (h : (dateChunk t).isSome) :
    ∃ c ∈ t, isSepChar c = true := by
  rcases palt_isSome_elim h with h | h
  · exact sep_after2 _ t h
  rcases palt_isSome_elim h with h | h
  · exact sep_after2 _ t h
  rcases palt_isSome_elim h with h | h
  · exact sep_after1 _ t h
  · exact sep_after1 _ t h

/-- A date token forces a special character (its separator is neither a
word character nor whitespace), so the date +15 structure bonus and the
no-special-character +20 quality bonus are mutually exclusive. -/
theorem hasDateToken_hasSpecial {l : List Char} (h : hasDateToken l = true) :
    hasSpecialChar l = true := by
  obtain ⟨t, hsuf, hsome⟩ := scan_exists h
  obtain ⟨c, hct, hsep⟩ := dateChunk_sep hsome
  have hmem : c ∈ l := hsuf.subset hct
  have hspec : isSpecialChar c = true := by
    simp only [isSepChar, Bool.or_eq_true, decide_eq_true_eq] at hsep
    rcases hsep with rfl | rfl <;> decide
  simp only [hasSpecialChar, List.any_eq_true]
  exact ⟨c, hmem, hspec⟩

/-! ## Bounds on the integrity components -/

theorem lengthAlphaPoints_le (l : List Char) : lengthAlphaPoints l ≤ 60 := by
  unfold lengthAlphaPoints
  split <;> split <;> split <;> omega

theorem textQualityOf_le (l : List Char) : textQualityOf l ≤ 80 := by
  unfold textQualityOf
  have := lengthAlphaPoints_le l
  split <;> omega

theorem structurePointsOf_le (l : List Char) : structurePointsOf l ≤ 35 := by
  unfold structurePointsOf
  split <;> split <;> split <;> omega

/-- The key interaction: the total of the quality and structure points
never exceeds 100. -/
theorem quality_structure_le (l : List Char) :
    textQualityOf l + structurePointsOf l ≤ 100 := by
  by_cases hd : hasDateToken l = true
  · have hs := hasDateToken_hasSpecial hd
    have h1 := lengthAlphaPoints_le l
    have h2 := structurePointsOf_le l
    unfold textQualityOf
    rw [if_pos hs]
    omega
  · have h1 := textQualityOf_le l
    have hd' : hasDateToken l = false := by simpa using hd
    unfold structurePointsOf
    rw [hd']
    simp only [Bool.false_eq_true, if_false]
    split <;> split <;> omega

/-! ## Claim C10 — the special-character quality check is all-or-nothing -/

/-- Claim C10: the fourth 20-point text-quality check is all-or-nothing on
special characters, not a density measure: every text whose characters are
all word characters or whitespace gets the 20 points — including the empty
string, whose `text_quality` is therefore 20, not 0 — while a single
`[^\w\s]` character anywhere in the text forfeits all 20 points. -/
theorem c10_special_char_check :
    textQualityOf ("".data) = 20 ∧
    (∀ t : List Char, (∀ c ∈ t, (isWordChar c || isSpaceChar c) = true) →
      textQualityOf t = lengthAlphaPoints t + 20) ∧
    (∀ (t₁ t₂ : List Char) (c : Char), (isWordChar c || isSpaceChar c) = false →
      textQualityOf (t₁ ++ c :: t₂) = lengthAlphaPoints (t₁ ++ c :: t₂)) := by
  refine ⟨by decide, ?_, ?_⟩
  · intro t h
    have hs : hasSpecialChar t = false := by
      simp only [hasSpecialChar, List.any_eq_false]
      intro c hc
      simp [isSpecialChar, h c hc]
    simp [textQualityOf, hs]
  · intro t₁ t₂ c hc
    have hs : hasSpecialChar (t₁ ++ c :: t₂) = true := by
      simp only [hasSpecialChar, List.any_eq_true]
      exact ⟨c, by simp, by simp [isSpecialChar, hc]⟩
    simp [textQualityOf, hs]

/-- Witness for C10 at concrete inputs: a clean three-letter text keeps the
20 points; a lone slash forfeits them. -/
theorem c10_witness :
    textQualityOf ('a' :: 'b' :: 'c' :: []) =
      lengthAlphaPoints ('a' :: 'b' :: 'c' :: []) + 20 ∧
    textQualityOf ([] ++ '/' :: []) = lengthAlphaPoints ([] ++ '/' :: []) :=
  ⟨c10_special_char_check.2.1 _ (by decide),
   c10_special_char_check.2.2 [] [] '/' (by decide)⟩

/-! ## Claim C9 — the analytics log is append-only and bounded -/

/-- Claim C9: after every `log_validation` call the history holds at most
100 entries; the result is a suffix of `history ++ [entry]` (only the
oldest entries are evicted, order preserved, new entry last); nothing is
evicted below 100, and at the bound exactly the most recent 100 remain. -/
theorem c9_log_bounded (hist : List LogEntry) (e : LogEntry) :
    (log_validation hist e).length ≤ 100 ∧
    log_validation hist e <:+ hist ++ [e] ∧
    (log_validation hist e).getLast? = some e ∧
    (hist.length < 100 → log_validation hist e = hist ++ [e]) ∧
    (100 ≤ hist.length →
      log_validation hist e = (hist ++ [e]).drop (hist.length + 1 - 100)) := by
  unfold log_validation
  have hlen : (hist ++ [e]).length = hist.length + 1 := by simp
  refine ⟨?_, ?_, ?_, ?_, ?_⟩
  · split
    · rw [List.length_drop]; omega
    · omega
  · split
    · exact List.drop_suffix _ _
    · exact List.suffix_refl _
  · split
    · next hgt =>
      rw [List.drop_append_of_le_length (by omega)]
      exact List.getLast?_concat _
    · exact List.getLast?_concat _
  · intro hlt
    rw [if_neg (by omega)]
  · intro hge
    rw [if_pos (by omega), hlen]

/-- Witness for C9: an empty history grows by appending; a full history of
100 entries evicts exactly the oldest entry. -/
theorem c9_witness :
    log_validation [] (⟨"t", "aadhaar", true, 1, 1⟩ : LogEntry) =
      [] ++ [(⟨"t", "aadhaar", true, 1, 1⟩ : LogEntry)] ∧
    log_validation (List.replicate 100 (⟨"t", "aadhaar", true, 1, 1⟩ : LogEntry))
        (⟨"t", "aadhaar", true, 1, 1⟩ : LogEntry) =
      (List.replicate 100 (⟨"t", "aadhaar", true, 1, 1⟩ : LogEntry) ++
        [(⟨"t", "aadhaar", true, 1, 1⟩ : LogEntry)]).drop
        ((List.replicate 100 (⟨"t", "aadhaar", true, 1, 1⟩ : LogEntry)).length + 1 - 100) :=
  ⟨(c9_log_bounded [] (⟨"t", "aadhaar", true, 1, 1⟩ : LogEntry)).2.2.2.1 (by decide),
   (c9_log_bounded (List.replicate 100 (⟨"t", "aadhaar", true, 1, 1⟩ : LogEntry))
      (⟨"t", "aadhaar", true, 1, 1⟩ : LogEntry)).2.2.2.2 (by simp)⟩

/-! ## Claim C4 — field extraction -/

/-- Claim C4: for a required field with an extraction pattern, the field
is marked found iff the pattern has at least one case-insensitive match
(`re.finditer` count > 0), with confidence `min(100, matchCount*30 + 40)`
(and confidence 0 when not found); for a field with no pattern whose name
is none of the recognized heuristic names `signature_stamp`,
`issuing_authority`, `address`, the field is always found with confidence
exactly 50, for every input text. -/
theorem c4_field_extraction (rx : Regex) (text : String)
    (patterns : List (String × String)) (field : String) :
    (∀ pat, patterns.lookup field = some pat →
      fieldCheck rx text patterns field =
        (decide (0 < rx.count pat text),
         if 0 < rx.count pat text then min 100 (rx.count pat text * 30 + 40)
         else 0)) ∧
    (patterns.lookup field = none → field ≠ "signature_stamp" →
      field ≠ "issuing_authority" → field ≠ "address" →
      fieldCheck rx text patterns field = (true, 50)) := by
  constructor
  · intro pat hpat
    unfold fieldCheck
    rw [hpat]
    by_cases h : 0 < rx.count pat text
    · simp [h]
    · simp [h]
  · intro hnone h1 h2 h3
    unfold fieldCheck
    rw [hnone]
    simp [h1, h2, h3]

/-- Witness for C4: on the concrete oracle `rxC`, the `name` pattern of the
non-creamy-layer type has 3 matches in `ncText`, giving
`(found, min(100, 3*30+40)) = (true, 100)`; a made-up pattern-less,
non-heuristic field name is found with confidence 50. -/
theorem c4_witness :
    fieldCheck rxC ncText nonCreamyConfig.patterns "name" =
      (decide (0 < rxC.count patName35 ncText),
       if 0 < rxC.count patName35 ncText
       then min 100 (rxC.count patName35 ncText * 30 + 40) else 0) ∧
    fieldCheck rxC ncText nonCreamyConfig.patterns "some_other_field" =
      (true, 50) :=
  ⟨(c4_field_extraction rxC ncText nonCreamyConfig.patterns "name").1
      patName35 (by decide),
   (c4_field_extraction rxC ncText nonCreamyConfig.patterns "some_other_field").2
      (by decide) (by decide) (by decide) (by decide)⟩

/-! ## Claim C6 — unknown document type (corrected) -/

theorem lookup_none_of_not_mem_keys {α β : Type} [DecidableEq α]
    (l : List (α × β)) (a : α) (h : a ∉ l.map Prod.fst) : l.lookup a = none := by
  induction l with
  | nil => rfl
  | cons p t ih =>
    simp only [List.map_cons, List.mem_cons] at h
    push_neg at h
    rw [List.lookup_cons]
    have : (a == p.1) = false := by
      simp only [beq_eq_false_iff_ne, ne_eq]
      exact h.1
    rw [this]
    exact ih h.2

/-- Counterexample to C6: for an unregistered type id the engine returns
the defensive two-key dict `{'valid': False, 'missing_fields': ['Unknown
document type']}`.  That dict has *no* `'validity_score'` entry at all, so
the claimed "validity score of 0" does not exist: reading the score gives
`none`, not `0`. -/
theorem c6_counterexample :
    validate_document rx0 "some text" "passport" = .unknownType ∧
    vScore? (validate_document rx0 "some text" "passport") = none ∧
    vScore? (validate_document rx0 "some text" "passport") ≠ some 0 := by
  refine ⟨rfl, rfl, by decide⟩

/-- Claim C6 as amended: for every text and every typeId not present in the
pattern registry, `validate_document` returns (does not raise) the
unknown-type report, which carries `valid = false` and
`missing_fields = ["Unknown document type"]` — and *no* validity-score
entry (rather than a score of 0). -/
theorem c6_unknown_type_amended (rx : Regex) (text : String) (dt : String)
    (h : dt ∉ registryIds) :
    validate_document rx text dt = .unknownType ∧
    vValid (validate_document rx text dt) = false ∧
    vMissing (validate_document rx text dt) = ["Unknown document type"] ∧
    vScore? (validate_document rx text dt) = none := by
  have hcfg : findConfig dt = none :=
    lookup_none_of_not_mem_keys document_patterns dt h
  unfold validate_document
  rw [hcfg]
  exact ⟨rfl, rfl, rfl, rfl⟩

/-- Witness for C6 at a concrete unregistered id. -/
theorem c6_witness :
    validate_document rx0 "" "passport" = .unknownType ∧
    vValid (validate_document rx0 "" "passport") = false ∧
    vMissing (validate_document rx0 "" "passport") = ["Unknown document type"] ∧
    vScore? (validate_document rx0 "" "passport") = none :=
  c6_unknown_type_amended rx0 "" "passport" (by decide)

/-! ## Claim C7 — insufficient-text short circuit (corrected) -/

/-- Counterexample to C7: the pipeline checks the in-band extraction-error
sentinels *before* the length check, so the text `"Error"` — whose trimmed
length 5 is below 10 — produces the extraction-error outcome, not the
insufficient-text outcome. -/
theorem c7_counterexample :
    strippedLen "Error" < 10 ∧
    check_document rx0 0 "Error" = .extractionError "Error" ∧
    isInsufficientOutcome (check_document rx0 0 "Error") = false := by
  refine ⟨by decide, ?_, ?_⟩ <;> rfl

/-- Claim C7 as amended: for every extracted text that does not begin with
one of the extraction-error sentinels (`Error`, `OCR not available`,
`No text could be extracted`, `File not found`) and whose trimmed length is
below 10 characters, `check_document` short-circuits to the distinct
insufficient-text outcome — a constructor other than `.report`, carrying
`valid = false`, confidence 0 and the fixed re-capture suggestion — without
running classification or validation. -/
theorem c7_insufficient_text_amended (rx : Regex) (now : ℚ) (text : String)
    (herr : startsWithExtractionError text = false)
    (hlen : strippedLen text < 10) :
    check_document rx now text =
      .insufficientText insufficientSuggestion 0 text.data.length ∧
    outcomeValid (check_document rx now text) = false := by
  unfold check_document
  rw [herr]
  rw [if_neg (by simp : ¬ (false = true))]
  rw [if_pos hlen]
  exact ⟨rfl, rfl⟩

/-- Witness for C7 at the concrete short text `"hi"`. -/
theorem c7_witness :
    check_document rx0 0 "hi" =
      .insufficientText insufficientSuggestion 0 ("hi".data.length) ∧
    outcomeValid (check_document rx0 0 "hi") = false :=
  c7_insufficient_text_amended rx0 0 "hi" (by decide) (by decide)

/-! ## Claim C1 — the validity score stays in [0, 1] -/

theorem fieldCheck_conf_le (rx : Regex) (text : String)
    (patterns : List (String × String)) (field : String) :
    (fieldCheck rx text patterns field).2 ≤ 100 := by
  unfold fieldCheck
  repeat' split
  all_goals dsimp only
  all_goals omega

theorem security_score_bounds (text dt : String) :
    0 ≤ (check_security_features text dt).securityScore ∧
    (check_security_features text dt).securityScore ≤ 1 := by
  unfold check_security_features
  cases hcfg : findConfig dt with
  | none => exact ⟨le_refl 0, by norm_num⟩
  | some cfg =>
    simp only
    constructor
    · split
      · norm_num
      · positivity
    · split
      · norm_num
      · next hne =>
        rw [div_le_one (by positivity)]
        have := List.length_filter_le (fun f => occursLower f text)
          cfg.securityFeatures
        exact_mod_cast this

theorem integrityScoreOf_bounds (text : String) :
    0 ≤ integrityScoreOf text ∧ integrityScoreOf text ≤ 1 := by
  unfold integrityScoreOf
  constructor
  · positivity
  · rw [div_le_one (by norm_num)]
    have := quality_structure_le text.data
    exact_mod_cast this

theorem fieldFracOf_bounds (rx : Regex) (text : String) (cfg : DocConfig) :
    0 ≤ fieldFracOf rx text cfg ∧ fieldFracOf rx text cfg ≤ 1 := by
  unfold fieldFracOf
  split
  · exact ⟨le_refl 0, by norm_num⟩
  · next hne =>
    constructor
    · positivity
    · rw [div_le_one (by positivity)]
      have h1 : (foundFieldsOf rx text cfg).length ≤
          cfg.requiredFields.length := by
        unfold foundFieldsOf fieldResults
        rw [List.length_map]
        calc (((cfg.requiredFields.map fun f =>
                (f, fieldCheck rx text cfg.patterns f)).filter
                fun r => r.2.1)).length
            ≤ (cfg.requiredFields.map fun f =>
                (f, fieldCheck rx text cfg.patterns f)).length :=
              List.length_filter_le _ _
          _ = cfg.requiredFields.length := List.length_map _ _
      exact_mod_cast h1

theorem avgConfOf_bounds (rx : Regex) (text : String) (cfg : DocConfig) :
    0 ≤ avgConfOf rx text cfg ∧ avgConfOf rx text cfg ≤ 100 := by
  unfold avgConfOf
  split
  · exact ⟨le_refl 0, by norm_num⟩
  · next hne =>
    constructor
    · positivity
    · rw [div_le_iff₀ (by positivity)]
      have hmaps : (fieldResults rx text cfg).map (fun r => r.2.2) =
          cfg.requiredFields.map (fun f => (fieldCheck rx text cfg.patterns f).2) := by
        unfold fieldResults
        rw [List.map_map]
        rfl
      have hsum : confSumOf rx text cfg ≤ 100 * cfg.requiredFields.length := by
        unfold confSumOf
        rw [hmaps]
        have h := List.sum_le_card_nsmul
          (cfg.requiredFields.map fun f => (fieldCheck rx text cfg.patterns f).2)
          100 ?_
        · rw [List.length_map] at h
          simpa [smul_eq_mul, Nat.mul_comm] using h
        · intro x hx
          obtain ⟨f, _, rfl⟩ := List.mem_map.mp hx
          exact fieldCheck_conf_le rx text cfg.patterns f
      calc (confSumOf rx text cfg : ℚ)
          ≤ (100 * cfg.requiredFields.length : ℕ) := by exact_mod_cast hsum
        _ = 100 * (cfg.requiredFields.length : ℚ) := by push_cast; ring

/-- The composite score is within [0, 1] for any oracle, text and type. -/
theorem validityScoreOf_bounds (rx : Regex) (text : String) (dt : String)
    (cfg : DocConfig) :
    0 ≤ validityScoreOf rx text dt cfg ∧ validityScoreOf rx text dt cfg ≤ 1 := by
  obtain ⟨hf0, hf1⟩ := fieldFracOf_bounds rx text cfg
  obtain ⟨ha0, ha1⟩ := avgConfOf_bounds rx text cfg
  obtain ⟨hs0, hs1⟩ := security_score_bounds text dt
  obtain ⟨hi0, hi1⟩ := integrityScoreOf_bounds text
  have hpen : (0 : ℚ) ≤ ((redFlagsOf text).length : ℚ) * 0.1 := by positivity
  have hbase : baseScoreOf rx text dt cfg ≤ 1 := by
    unfold baseScoreOf
    have haq : avgConfOf rx text cfg / 100 ≤ 1 := by
      rw [div_le_one (by norm_num)]; exact ha1
    nlinarith
  unfold validityScoreOf
  constructor
  · exact le_max_left 0 _
  · exact max_le (by norm_num) (by linarith)

/-- Claim C1: for every input text (including the empty string and
arbitrarily long adversarial strings — the text is universally quantified)
and every registered document type, `validate_document` produces a report
whose `validity_score` lies in the closed interval [0, 1]. -/
theorem c1_validity_score_bounds (rx : Regex) (text : String) (dt : String)
    (h : dt ∈ registryIds) :
    ∃ r, validate_document rx text dt = .ok r ∧
      0 ≤ r.validityScore ∧ r.validityScore ≤ 1 := by
  have hsome : ∃ cfg, findConfig dt = some cfg := by
    simp only [registryIds, document_patterns, List.map_cons, List.map_nil,
      List.mem_cons, List.not_mem_nil, or_false] at h
    rcases h with rfl | rfl | rfl | rfl | rfl | rfl <;>
      exact ⟨_, rfl⟩
  obtain ⟨cfg, hcfg⟩ := hsome
  refine ⟨buildReport rx text dt cfg, ?_, ?_, ?_⟩
  · unfold validate_document
    rw [hcfg]
  · exact (validityScoreOf_bounds rx text dt cfg).1
  · exact (validityScoreOf_bounds rx text dt cfg).2

/-- Witness for C1 at the empty string and the registered `aadhaar` type
(score 1/25 with the trivial oracle). -/
theorem c1_witness :
    ∃ r, validate_document rx0 "" "aadhaar" = .ok r ∧
      0 ≤ r.validityScore ∧ r.validityScore ≤ 1 :=
  c1_validity_score_bounds rx0 "" "aadhaar" (by decide)

/-! ## Claim C2 — the validity verdict invariant -/

theorem validate_ok_valid_iff (rx : Regex) (text : String) (dt : String)
    (r : ValidationOk) (h : validate_document rx text dt = .ok r) :
    r.valid = true ↔ ((0.6 : ℚ) ≤ r.validityScore ∧ r.redFlags = []) := by
  unfold validate_document at h
  cases hcfg : findConfig dt with
  | none => rw [hcfg] at h; cases h
  | some cfg =>
    rw [hcfg] at h
    injection h with h
    subst h
    show (decide ((0.6 : ℚ) ≤ validityScoreOf rx text dt cfg) &&
      (redFlagsOf text).isEmpty) = true ↔ _
    simp [Bool.and_eq_true, decide_eq_true_eq, List.isEmpty_iff, buildReport]

/-- Claim C2: in every validation report, `valid` holds iff the validity
score is at least 0.6 and the red-flag list is empty; and in the
`check_document` pipeline, the final verdict is additionally forced to
`false` when the resolved expiry date is in the past (`valid` of the final
report holds iff score ≥ 0.6, no red flags, and not expired). -/
theorem c2_valid_iff :
    (∀ (rx : Regex) (text dt : String) (r : ValidationOk),
      validate_document rx text dt = .ok r →
      (r.valid = true ↔ ((0.6 : ℚ) ≤ r.validityScore ∧ r.redFlags = []))) ∧
    (∀ (rx : Regex) (now : ℚ) (text : String) (rep : CheckReport),
      check_document rx now text = .report rep →
      ∃ vr, validate_document rx text rep.documentType = .ok vr ∧
        (rep.valid = true ↔ ((0.6 : ℚ) ≤ vr.validityScore ∧ vr.redFlags = [] ∧
          rep.expiryInfo.expired = false))) := by
  constructor
  · exact validate_ok_valid_iff
  · intro rx now text rep h
    unfold check_document at h
    split at h
    · cases h
    · split at h
      · cases h
      · split at h
        · cases h
        · next dt hdt =>
          split at h
          · cases h
          · next vr hvr =>
            injection h with h
            subst h
            refine ⟨vr, hvr, ?_⟩
            have hiff := validate_ok_valid_iff rx text dt vr hvr
            show (vr.valid && !(check_expiry_date rx text now).expired) = true ↔ _
            rw [Bool.and_eq_true, Bool.not_eq_true']
            rw [hiff]
            tauto

/-- Witness for C2 at concrete inputs: the trivial oracle on the empty
text for `aadhaar`, and the full pipeline on the classifier witness text
(which produces a report for `aadhaar`). -/
theorem c2_witness :
    (∃ r, validate_document rx0 "" "aadhaar" = .ok r ∧
      (r.valid = true ↔ ((0.6 : ℚ) ≤ r.validityScore ∧ r.redFlags = []))) ∧
    (∃ rep, check_document rx0 0 cT3 = .report rep ∧
      ∃ vr, validate_document rx0 cT3 rep.documentType = .ok vr ∧
        (rep.valid = true ↔ ((0.6 : ℚ) ≤ vr.validityScore ∧ vr.redFlags = [] ∧
          rep.expiryInfo.expired = false))) :=
  ⟨⟨buildReport rx0 "" "aadhaar" aadhaarConfig, rfl,
    c2_valid_iff.1 rx0 "" "aadhaar" _ rfl⟩,
   ⟨{ documentType := "aadhaar", valid := false,
      missingFields := ["12_digit_number", "name", "dob"], foundFields := [],
      securityWarnings := [], redFlags := [], expiryInfo := noExpiryInfo },
    by with_unfolding_all decide,
    c2_valid_iff.2 rx0 0 cT3 _ (by with_unfolding_all decide)⟩⟩

/-! ## Claim C3 — the primary classifier's weighted decision -/

theorem pickFold_mem (x : String × ℚ) (xs : List (String × ℚ)) :
    xs.foldl pickStep x = x ∨ xs.foldl pickStep x ∈ xs := by
  induction xs generalizing x with
  | nil => exact Or.inl rfl
  | cons y ys ih =>
    rw [List.foldl_cons]
    rcases ih (pickStep x y) with h | h
    · rw [h]
      unfold pickStep
      split
      · exact Or.inr (List.mem_cons_self _ _)
      · exact Or.inl rfl
    · exact Or.inr (List.mem_cons_of_mem _ h)

theorem pickFold_ge (x : String × ℚ) (xs : List (String × ℚ)) :
    x.2 ≤ (xs.foldl pickStep x).2 ∧
    ∀ y ∈ xs, y.2 ≤ (xs.foldl pickStep x).2 := by
  induction xs generalizing x with
  | nil => exact ⟨le_refl _, by intro y hy; cases hy⟩
  | cons y ys ih =>
    rw [List.foldl_cons]
    obtain ⟨h1, h2⟩ := ih (pickStep x y)
    have hx : x.2 ≤ (pickStep x y).2 := by
      unfold pickStep
      split
      · next h => exact le_of_lt h
      · exact le_refl _
    have hy : y.2 ≤ (pickStep x y).2 := by
      unfold pickStep
      split
      · exact le_refl _
      · next h => exact le_of_not_lt h
    refine ⟨le_trans hx h1, ?_⟩
    intro z hz
    rcases List.mem_cons.mp hz with rfl | hz
    · exact le_trans hy h1
    · exact h2 z hz

theorem detect_eq_of_pickBest (rx : Regex) (text : String) (b : String × ℚ)
    (h : pickBest (scoresList rx text) = some b) :
    detect_document_type rx text = if 2 ≤ b.2 then some b.1 else none := by
  unfold detect_document_type
  rw [h]

theorem bestTotal_eq_of_pickBest (rx : Regex) (text : String) (b : String × ℚ)
    (h : pickBest (scoresList rx text) = some b) :
    bestTotal rx text = b.2 := by
  unfold bestTotal
  rw [h]

/-- Claim C3: for every registered type the classifier computes the
weighted total `0.4*keyword + 0.3*pattern + 0.2*context + 0.1*structure`;
it returns a type attaining the maximum total iff that maximum is ≥ 2.0,
and returns no match (`None`) otherwise. -/
theorem c3_classifier_decision (rx : Regex) (text : String) :
    (scoresList rx text = document_patterns.map (fun p => (p.1,
      (keywordScoreOf (normalizeText text) p.2 : ℚ) * 0.4 +
      (patternScoreOf rx text p.1 p.2 : ℚ) * 0.3 +
      (contextScoreOf text p.1 : ℚ) * 0.2 +
      (structureScoreOf text p.1 : ℚ) * 0.1))) ∧
    (detect_document_type rx text = none ↔ bestTotal rx text < 2) ∧
    (∀ id, detect_document_type rx text = some id →
      2 ≤ bestTotal rx text ∧
      (id, bestTotal rx text) ∈ scoresList rx text ∧
      ∀ p ∈ scoresList rx text, p.2 ≤ bestTotal rx text) := by
  obtain ⟨x, xs, hx⟩ : ∃ x xs, scoresList rx text = x :: xs :=
    ⟨_, _, (rfl : scoresList rx text =
      ("aadhaar", typeTotal rx text "aadhaar" aadhaarConfig) ::
      (scoresList rx text).tail)⟩
  have hpb : pickBest (scoresList rx text) = some (xs.foldl pickStep x) := by
    rw [hx]; rfl
  have hdet := detect_eq_of_pickBest rx text _ hpb
  have hbt := bestTotal_eq_of_pickBest rx text _ hpb
  refine ⟨rfl, ?_, ?_⟩
  · rw [hdet, hbt]
    split
    · next h => simp only [reduceCtorEq, false_iff, not_lt]; exact h
    · next h => simp only [true_iff]; exact lt_of_not_ge h
  · intro id hid
    rw [hdet] at hid
    split at hid
    · next h2 =>
      injection hid with hid
      obtain ⟨hge1, hge2⟩ := pickFold_ge x xs
      refine ⟨by rw [hbt]; exact h2, ?_, ?_⟩
      · rw [hbt, ← hid, Prod.mk.eta, hx]
        rcases pickFold_mem x xs with h | h
        · rw [h]; exact List.mem_cons_self _ _
        · exact List.mem_cons_of_mem _ h
      · intro p hp
        rw [hbt]
        rw [hx] at hp
        rcases List.mem_cons.mp hp with rfl | hp
        · exact hge1
        · exact hge2 p hp
    · cases hid

/-- Witness for C3: on the text `cT3` with the trivial oracle, the
classifier returns `aadhaar` whose weighted total 5.0 is the maximum. -/
theorem c3_witness :
    detect_document_type rx0 cT3 = some "aadhaar" ∧
    2 ≤ bestTotal rx0 cT3 ∧
    ("aadhaar", bestTotal rx0 cT3) ∈ scoresList rx0 cT3 :=
  have h : detect_document_type rx0 cT3 = some "aadhaar" := by
    with_unfolding_all decide
  ⟨h, ((c3_classifier_decision rx0 cT3).2.2 "aadhaar" h).1,
    ((c3_classifier_decision rx0 cT3).2.2 "aadhaar" h).2.1⟩

/-! ## Claim C5 — expiry resolution -/

/-- Claim C5: the resolver tries the four validity-date templates in the
fixed source order with the first matching template winning (no further
templates consulted); the captured string is parsed against the four
formats `%d/%m/%Y`, `%d-%m-%Y`, `%m/%d/%Y`, `%m-%d-%Y` in order with the
first successful parse winning; `expired` holds iff the parsed date is
strictly before the current time, and `expiresSoon` holds iff
`0 ≤ daysUntilExpiry < 30`. -/
theorem c5_expiry_resolution (rx : Regex) (text : String) (now : ℚ) :
    (check_expiry_date rx text now =
      expiryFromCapture
        (validityTemplates.findSome? (fun p => rx.capture p text)) now) ∧
    (∀ s, rx.capture tplValidUntil text = some s →
      validityTemplates.findSome? (fun p => rx.capture p text) = some s) ∧
    (∀ s, rx.capture tplValidUntil text = none →
      rx.capture tplExpiresOn text = some s →
      validityTemplates.findSome? (fun p => rx.capture p text) = some s) ∧
    (validityTemplates.findSome? (fun p => rx.capture p text) = none →
      check_expiry_date rx text now = noExpiryInfo) ∧
    (∀ s, validityTemplates.findSome? (fun p => rx.capture p text) = some s →
      parseAnyFormat s = none → check_expiry_date rx text now = noExpiryInfo) ∧
    (∀ s d, validityTemplates.findSome? (fun p => rx.capture p text) = some s →
      parseAnyFormat s = some d →
      (check_expiry_date rx text now).hasExpiry = true ∧
      (check_expiry_date rx text now).expiryDate = some s ∧
      ((check_expiry_date rx text now).expired = true ↔
        (civilDays d : ℚ) < now) ∧
      ((check_expiry_date rx text now).expiresSoon = true ↔
        (0 ≤ ⌊(civilDays d : ℚ) - now⌋ ∧ ⌊(civilDays d : ℚ) - now⌋ < 30))) ∧
    (∀ s d, strptimeDate '/' false s = some d → parseAnyFormat s = some d) ∧
    (∀ s d, strptimeDate '/' false s = none →
      strptimeDate '-' false s = some d → parseAnyFormat s = some d) := by
  refine ⟨rfl, ?_, ?_, ?_, ?_, ?_, ?_, ?_⟩
  · intro s h
    simp [validityTemplates, List.findSome?_cons, h]
  · intro s h1 h2
    simp [validityTemplates, List.findSome?_cons, h1, h2]
  · intro h
    unfold check_expiry_date
    rw [h]
    rfl
  · intro s hcap hparse
    have he : check_expiry_date rx text now =
        expiryOfDate s now (parseAnyFormat s) := by
      unfold check_expiry_date
      rw [hcap]
      rfl
    rw [he, hparse]
    rfl
  · intro s d hcap hparse
    have he : check_expiry_date rx text now =
        expiryOfDate s now (parseAnyFormat s) := by
      unfold check_expiry_date
      rw [hcap]
      rfl
    rw [he, hparse]
    refine ⟨rfl, rfl, ?_, ?_⟩
    · show decide (⌊((civilDays d : ℚ) - now)⌋ < 0) = true ↔ _
      simp only [decide_eq_true_eq]
      constructor
      · intro h
        have h2 := Int.floor_lt.mp h
        push_cast at h2
        linarith
      · intro h
        apply Int.floor_lt.mpr
        push_cast
        linarith
    · show (decide (¬ ⌊((civilDays d : ℚ) - now)⌋ < 0) &&
        decide (⌊((civilDays d : ℚ) - now)⌋ < 30)) = true ↔ _
      simp only [Bool.and_eq_true, decide_eq_true_eq]
      omega
  · intro s d h
    simp [parseAnyFormat, h]
  · intro s d h1 h2
    simp [parseAnyFormat, h1, h2]

/-- Witness for C5: a concrete oracle whose first template captures
`01/01/2020` (rata-die day 18262), evaluated at `now = 20000`
(mid-2024): the date parses day-first, the document is expired and not
expiring soon. -/
theorem c5_witness :
    (check_expiry_date rxE "doc" 20000).expired = true ∧
    (check_expiry_date rxE "doc" 20000).expiresSoon = false ∧
    (check_expiry_date rxE "doc" 20000).hasExpiry = true := by
  have hcap : validityTemplates.findSome? (fun p => rxE.capture p "doc") =
      some "01/01/2020" :=
    (c5_expiry_resolution rxE "doc" 20000).2.1 "01/01/2020" (by decide)
  have hparse : parseAnyFormat "01/01/2020" = some ⟨2020, 1, 1⟩ := by decide
  have h6 := (c5_expiry_resolution rxE "doc" 20000).2.2.2.2.2.1 "01/01/2020"
    ⟨2020, 1, 1⟩ hcap hparse
  refine ⟨?_, ?_, h6.1⟩
  · rw [h6.2.2.1]
    with_unfolding_all decide
  · rw [Bool.eq_false_iff]
    intro hsoon
    have h0 := (h6.2.2.2.mp hsoon).1
    rw [show ((civilDays ⟨2020, 1, 1⟩ : ℚ) - 20000) = -1738 by
      with_unfolding_all decide] at h0
    rw [show ⌊(-1738 : ℚ)⌋ = -1738 by with_unfolding_all decide] at h0
    omega

/-! ## Claim C8 — monotonicity under appended matching text -/

theorem string_data_append (t s : String) : (t ++ s).data = t.data ++ s.data :=
  String.data_append t s

theorem occursLower_append (term t s : String)
    (h : occursLower term t = true) : occursLower term (t ++ s) = true := by
  unfold occursLower lowerStr at h ⊢
  rw [string_data_append, List.map_append]
  exact occursIn_append _ h

theorem countP_occursLower_mono (terms : List String) (t s : String) :
    terms.countP (fun x => occursLower x t) ≤
    terms.countP (fun x => occursLower x (t ++ s)) :=
  List.countP_mono_left (fun a _ h => occursLower_append a t s h)

/-- Monotone step for one `(found, min(100, m*a+b))` confidence branch. -/
theorem branch_mono (m1 m2 a b : Nat) (hm : m1 ≤ m2) :
    ((if 1 ≤ m1 then (true, min 100 (m1 * a + b)) else (false, 0)).1 = true →
      (if 1 ≤ m2 then (true, min 100 (m2 * a + b)) else (false, 0)).1 = true) ∧
    (if 1 ≤ m1 then (true, min 100 (m1 * a + b)) else (false, 0)).2 ≤
      (if 1 ≤ m2 then (true, min 100 (m2 * a + b)) else (false, 0)).2 := by
  by_cases h1 : 1 ≤ m1
  · rw [if_pos h1, if_pos (le_trans h1 hm)]
    refine ⟨fun _ => rfl, ?_⟩
    have : m1 * a + b ≤ m2 * a + b := by
      have := Nat.mul_le_mul_right a hm
      omega
    exact min_le_min (le_refl 100) this
  · rw [if_neg h1]
    by_cases h2 : 1 ≤ m2
    · rw [if_pos h2]
      exact ⟨(fun h => nomatch h), Nat.zero_le _⟩
    · rw [if_neg h2]
      exact ⟨fun h => h, le_refl _⟩

theorem fieldCheck_eq_pattern (rx : Regex) (text : String)
    (pats : List (String × String)) (f pat : String)
    (h : pats.lookup f = some pat) :
    fieldCheck rx text pats f =
      if 0 < rx.count pat text
      then (true, min 100 (rx.count pat text * 30 + 40)) else (false, 0) := by
  unfold fieldCheck
  rw [h]

theorem fieldCheck_eq_sig (rx : Regex) (text : String)
    (pats : List (String × String)) (f : String)
    (h : pats.lookup f = none) (h1 : f = "signature_stamp") :
    fieldCheck rx text pats f =
      if 1 ≤ signatureTermCount text
      then (true, min 100 (signatureTermCount text * 25 + 25))
      else (false, 0) := by
  unfold fieldCheck
  rw [h, if_pos h1]

theorem fieldCheck_eq_auth (rx : Regex) (text : String)
    (pats : List (String × String)) (f : String)
    (h : pats.lookup f = none) (h1 : f ≠ "signature_stamp")
    (h2 : f = "issuing_authority") :
    fieldCheck rx text pats f =
      if 1 ≤ authorityTermCount text
      then (true, min 100 (authorityTermCount text * 30 + 30))
      else (false, 0) := by
  unfold fieldCheck
  rw [h, if_neg h1, if_pos h2]

theorem fieldCheck_eq_addr (rx : Regex) (text : String)
    (pats : List (String × String)) (f : String)
    (h : pats.lookup f = none) (h1 : f ≠ "signature_stamp")
    (h2 : f ≠ "issuing_authority") (h3 : f = "address") :
    fieldCheck rx text pats f =
      if 1 ≤ addressTermCount text
      then (true, min 100 (addressTermCount text * 20 + 40))
      else (false, 0) := by
  unfold fieldCheck
  rw [h, if_neg h1, if_neg h2, if_pos h3]

theorem fieldCheck_eq_generic (rx : Regex) (text : String)
    (pats : List (String × String)) (f : String)
    (h : pats.lookup f = none) (h1 : f ≠ "signature_stamp")
    (h2 : f ≠ "issuing_authority") (h3 : f ≠ "address") :
    fieldCheck rx text pats f = (true, 50) := by
  unfold fieldCheck
  rw [h, if_neg h1, if_neg h2, if_neg h3]

/-- Per-field monotonicity: a found field stays found and its confidence
does not decrease when match counts and term counts do not decrease. -/
theorem fieldCheck_mono (rx : Regex) (t s : String)
    (pats : List (String × String)) (f : String)
    (hcount : ∀ p, rx.count p t ≤ rx.count p (t ++ s)) :
    ((fieldCheck rx t pats f).1 = true → (fieldCheck rx (t ++ s) pats f).1 = true) ∧
    (fieldCheck rx t pats f).2 ≤ (fieldCheck rx (t ++ s) pats f).2 := by
  cases hl : pats.lookup f with
  | some pat =>
    rw [fieldCheck_eq_pattern rx t pats f pat hl,
      fieldCheck_eq_pattern rx (t ++ s) pats f pat hl]
    exact branch_mono _ _ 30 40 (hcount pat)
  | none =>
    by_cases h1 : f = "signature_stamp"
    · rw [fieldCheck_eq_sig rx t pats f hl h1,
        fieldCheck_eq_sig rx (t ++ s) pats f hl h1]
      exact branch_mono _ _ 25 25 (countP_occursLower_mono _ t s)
    · by_cases h2 : f = "issuing_authority"
      · rw [fieldCheck_eq_auth rx t pats f hl h1 h2,
          fieldCheck_eq_auth rx (t ++ s) pats f hl h1 h2]
        exact branch_mono _ _ 30 30 (countP_occursLower_mono _ t s)
      · by_cases h3 : f = "address"
        · rw [fieldCheck_eq_addr rx t pats f hl h1 h2 h3,
            fieldCheck_eq_addr rx (t ++ s) pats f hl h1 h2 h3]
          exact branch_mono _ _ 20 40 (countP_occursLower_mono _ t s)
        · rw [fieldCheck_eq_generic rx t pats f hl h1 h2 h3,
            fieldCheck_eq_generic rx (t ++ s) pats f hl h1 h2 h3]
          exact ⟨fun h => h, le_refl _⟩

theorem foundLen_eq_countP (rx : Regex) (t : String) (cfg : DocConfig) :
    (foundFieldsOf rx t cfg).length =
    cfg.requiredFields.countP (fun f => (fieldCheck rx t cfg.patterns f).1) := by
  unfold foundFieldsOf fieldResults
  rw [List.length_map, ← List.countP_eq_length_filter, List.countP_map]
  rfl

theorem foundLen_mono (rx : Regex) (t s : String) (cfg : DocConfig)
    (hcount : ∀ p, rx.count p t ≤ rx.count p (t ++ s)) :
    (foundFieldsOf rx t cfg).length ≤ (foundFieldsOf rx (t ++ s) cfg).length := by
  rw [foundLen_eq_countP, foundLen_eq_countP]
  exact List.countP_mono_left
    (fun f _ h => (fieldCheck_mono rx t s cfg.patterns f hcount).1 h)

theorem confSum_mono (rx : Regex) (t s : String) (cfg : DocConfig)
    (hcount : ∀ p, rx.count p t ≤ rx.count p (t ++ s)) :
    confSumOf rx t cfg ≤ confSumOf rx (t ++ s) cfg := by
  unfold confSumOf fieldResults
  rw [List.map_map, List.map_map]
  exact List.sum_le_sum
    (fun f _ => (fieldCheck_mono rx t s cfg.patterns f hcount).2)

theorem security_mono (t s dt : String) :
    (check_security_features t dt).securityScore ≤
    (check_security_features (t ++ s) dt).securityScore := by
  unfold check_security_features
  cases findConfig dt with
  | none => exact le_refl 0
  | some cfg =>
    simp only
    split
    · exact le_refl 1
    · next hne =>
      have hlen : (cfg.securityFeatures.filter (fun f => occursLower f t)).length ≤
          (cfg.securityFeatures.filter (fun f => occursLower f (t ++ s))).length := by
        rw [← List.countP_eq_length_filter, ← List.countP_eq_length_filter]
        exact countP_occursLower_mono _ t s
      have hpos : (0 : ℚ) < (cfg.securityFeatures.length : ℚ) := by
        have : 0 < cfg.securityFeatures.length := Nat.pos_of_ne_zero hne
        exact_mod_cast this
      exact div_le_div_of_nonneg_right (by exact_mod_cast hlen) hpos.le

theorem iteBoolMono (b1 b2 : Bool) (k : Nat) (h : b1 = true → b2 = true) :
    (if b1 = true then k else 0) ≤ (if b2 = true then k else 0) := by
  cases b1 with
  | false => simp
  | true => rw [if_pos rfl, if_pos (h rfl)]

theorem hasAlphaRun3_append (t s : List Char) (h : hasAlphaRun3 t = true) :
    hasAlphaRun3 (t ++ s) = true :=
  scan_append
    ((pseq_stable (pch_stable _)
      (pseq_stable (pch_stable _) (pch_stable _))).mono) s h

theorem hasUpperRun2_append (t s : List Char) (h : hasUpperRun2 t = true) :
    hasUpperRun2 (t ++ s) = true :=
  scan_append ((pseq_stable (pch_stable _) (pch_stable _)).mono) s h

theorem dateChunk_mono : MonoM dateChunk := by
  unfold dateChunk dChunk22 dChunk21 dChunk12 dChunk11
  refine palt_mono ?_ (palt_mono ?_ (palt_mono ?_ ?_)) <;>
    (apply StableM.mono) <;>
    (unfold pdig psep p4dig;
     repeat' first
       | exact pch_stable _
       | apply pseq_stable)

theorem hasDateToken_append (t s : List Char) (h : hasDateToken t = true) :
    hasDateToken (t ++ s) = true :=
  scan_append dateChunk_mono s h

theorem lengthAlphaPoints_mono (t s : List Char) :
    lengthAlphaPoints t ≤ lengthAlphaPoints (t ++ s) := by
  unfold lengthAlphaPoints
  have hlen : t.length ≤ (t ++ s).length := by
    rw [List.length_append]; omega
  have h1 : (if 100 < t.length then 20 else 0) ≤
      (if 100 < (t ++ s).length then 20 else 0) := by
    split
    · rw [if_pos (by omega)]
    · exact Nat.zero_le _
  have h2 : (if 300 < t.length then 20 else 0) ≤
      (if 300 < (t ++ s).length then 20 else 0) := by
    split
    · rw [if_pos (by omega)]
    · exact Nat.zero_le _
  have h3 := iteBoolMono (hasAlphaRun3 t) (hasAlphaRun3 (t ++ s)) 20
    (hasAlphaRun3_append t s)
  omega

theorem hasSpecialChar_append_eq (t s : List Char)
    (hclean : ∀ c ∈ s, (isWordChar c || isSpaceChar c) = true) :
    hasSpecialChar (t ++ s) = hasSpecialChar t := by
  unfold hasSpecialChar
  rw [List.any_append]
  have : s.any isSpecialChar = false := by
    rw [List.any_eq_false]
    intro c hc
    simp [isSpecialChar, hclean c hc]
  rw [this, Bool.or_false]

theorem textQualityOf_mono (t s : List Char)
    (hclean : ∀ c ∈ s, (isWordChar c || isSpaceChar c) = true) :
    textQualityOf t ≤ textQualityOf (t ++ s) := by
  unfold textQualityOf
  rw [hasSpecialChar_append_eq t s hclean]
  have := lengthAlphaPoints_mono t s
  omega

theorem structurePointsOf_mono (t s : List Char) :
    structurePointsOf t ≤ structurePointsOf (t ++ s) := by
  unfold structurePointsOf
  have h1 := iteBoolMono (hasDigitChar t) (hasDigitChar (t ++ s)) 10
    (by intro h; unfold hasDigitChar at h ⊢; rw [List.any_append, h]; rfl)
  have h2 := iteBoolMono (hasUpperRun2 t) (hasUpperRun2 (t ++ s)) 10
    (hasUpperRun2_append t s)
  have h3 := iteBoolMono (hasDateToken t) (hasDateToken (t ++ s)) 15
    (hasDateToken_append t s)
  omega

theorem integrityScoreOf_mono (t s : String)
    (hclean : ∀ c ∈ s.data, (isWordChar c || isSpaceChar c) = true) :
    integrityScoreOf t ≤ integrityScoreOf (t ++ s) := by
  unfold integrityScoreOf
  rw [string_data_append]
  have h1 := textQualityOf_mono t.data s.data hclean
  have h2 := structurePointsOf_mono t.data s.data
  have h3 : (textQualityOf t.data + structurePointsOf t.data : Nat) ≤
      (textQualityOf (t.data ++ s.data) + structurePointsOf (t.data ++ s.data) : Nat) := by
    omega
  have h4 : ((textQualityOf t.data + structurePointsOf t.data : Nat) : ℚ) ≤
      ((textQualityOf (t.data ++ s.data) + structurePointsOf (t.data ++ s.data) : Nat) : ℚ) := by
    exact_mod_cast h3
  exact div_le_div_of_nonneg_right h4 (by norm_num)

theorem fieldFracOf_mono (rx : Regex) (t s : String) (cfg : DocConfig)
    (hcount : ∀ p, rx.count p t ≤ rx.count p (t ++ s)) :
    fieldFracOf rx t cfg ≤ fieldFracOf rx (t ++ s) cfg := by
  unfold fieldFracOf
  by_cases hn : cfg.requiredFields.length = 0
  · rw [if_pos hn, if_pos hn]
  · rw [if_neg hn, if_neg hn]
    have h := foundLen_mono rx t s cfg hcount
    exact div_le_div_of_nonneg_right (by exact_mod_cast h) (by positivity)

theorem avgConfOf_mono (rx : Regex) (t s : String) (cfg : DocConfig)
    (hcount : ∀ p, rx.count p t ≤ rx.count p (t ++ s)) :
    avgConfOf rx t cfg ≤ avgConfOf rx (t ++ s) cfg := by
  unfold avgConfOf
  by_cases hn : cfg.requiredFields.length = 0
  · rw [if_pos hn, if_pos hn]
  · rw [if_neg hn, if_neg hn]
    have h := confSum_mono rx t s cfg hcount
    exact div_le_div_of_nonneg_right (by exact_mod_cast h) (by positivity)

/-- Counterexample to C8 as stated.  The baseline text `ncText` is 108
characters of letters, spaces and the digits `45000`: it classifies as
`non_creamy_layer` with the maximum weighted total 6.0, is valid
(score 0.8, no red flags).  Appending `" non-creamy layer"` — whitespace
plus one of that type's own configured keywords — introduces the keyword's
hyphen, the first `[^\w\s]` character of the text, which forfeits the
20-point special-character quality check while changing nothing else that
feeds the score: the validity score strictly *decreases* from 0.8 to 0.76.
(Oracle `rxC` records the `re` match counts of both texts, reproduced by
running Python `re` on them.) -/
theorem c8_counterexample :
    ncTextApp = ncText ++ ncSuffix ∧
    "non-creamy layer" ∈ nonCreamyConfig.keywords ∧
    occursIn "non-creamy layer".data ncSuffix.data = true ∧
    detect_document_type rxC ncText = some "non_creamy_layer" ∧
    vValid (validate_document rxC ncText "non_creamy_layer") = true ∧
    vScore? (validate_document rxC ncText "non_creamy_layer") = some (4/5) ∧
    vScore? (validate_document rxC ncTextApp "non_creamy_layer") = some (19/25) ∧
    ((19 : ℚ)/25) < 4/5 := by
  refine ⟨rfl, by decide, by decide, ?_, ?_, ?_, ?_, by norm_num⟩ <;>
    with_unfolding_all decide

/-- Claim C8 as amended: the validity score of a text for a registered
type never decreases when a substring is appended, provided the appended
substring (i) does not decrease any configured pattern's `re` match count
(as holds for `re` searches over the extended text), (ii) consists only of
word characters and whitespace (no `[^\w\s]` character), and (iii)
introduces no new fraud-indicator occurrence.  Without (ii) the original
claim fails (`c8_counterexample`): an appended matching keyword can itself
carry the text's first special character. -/
theorem c8_monotonicity_amended (rx : Regex) (t s dt : String)
    (hcount : ∀ p, rx.count p t ≤ rx.count p (t ++ s))
    (hclean : ∀ c ∈ s.data, (isWordChar c || isSpaceChar c) = true)
    (hflags : redFlagsOf (t ++ s) = redFlagsOf t) :
    ∀ r r', validate_document rx t dt = .ok r →
      validate_document rx (t ++ s) dt = .ok r' →
      r.validityScore ≤ r'.validityScore := by
  intro r r' h1 h2
  unfold validate_document at h1 h2
  cases hcfg : findConfig dt with
  | none => rw [hcfg] at h1; cases h1
  | some cfg =>
    rw [hcfg] at h1 h2
    injection h1 with h1
    injection h2 with h2
    subst h1
    subst h2
    show validityScoreOf rx t dt cfg ≤ validityScoreOf rx (t ++ s) dt cfg
    have hfrac := fieldFracOf_mono rx t s cfg hcount
    have havg := avgConfOf_mono rx t s cfg hcount
    have hsec := security_mono t s dt
    have hinteg := integrityScoreOf_mono t s hclean
    have hbase : baseScoreOf rx t dt cfg ≤ baseScoreOf rx (t ++ s) dt cfg := by
      unfold baseScoreOf
      have hdiv : avgConfOf rx t cfg / 100 ≤ avgConfOf rx (t ++ s) cfg / 100 :=
        div_le_div_of_nonneg_right havg (by norm_num)
      linarith
    unfold validityScoreOf
    rw [hflags]
    exact max_le_max (le_refl 0) (sub_le_sub_right hbase _)

/-- Witness for C8 (amended): appending `" tahsildar"` (word characters
and whitespace only, no fraud indicator, trivial oracle) to
`"income certificate"` does not decrease the score for
`income_certificate` (it rises from 0.08 to 0.17). -/
theorem c8_witness :
    (buildReport rx0 "income certificate" "income_certificate"
        incomeConfig).validityScore ≤
    (buildReport rx0 ("income certificate" ++ " tahsildar")
        "income_certificate" incomeConfig).validityScore :=
  c8_monotonicity_amended rx0 "income certificate" " tahsildar"
    "income_certificate"
    (fun _ => Nat.le_refl 0)
    (by decide)
    (by with_unfolding_all decide)
    (buildReport rx0 "income certificate" "income_certificate" incomeConfig)
    (buildReport rx0 ("income certificate" ++ " tahsildar")
      "income_certificate" incomeConfig)
    rfl rfl
